import Mathlib

/-!
Verification of the press-duration classification and timer-driven feedback
state machine of the WROVER_Humidity_Hub_and_Gateway repository.

The authoritative variant is the interrupt-driven sketch in
src/unnamed/part_000 (button ISR with debounce, flag-based dispatch loop,
Timer1 blink driver).  The variants in src/HWs/HW3/HW3/src/main.cpp and
src/HWs/HW3/HW3/src/RoniMain.cpp are embedded where the claims cite them.
Machine integers are modelled as Nat with explicit reduction where overflow
matters: modulo 2 ^ 32 for unsigned long timestamps, modulo 2 ^ 16 for the
int arithmetic stored into the 16-bit OCR1A compare register.
-/

namespace ButtonLed

/-- Threshold below which a press is Short (part_000 line 6, SHORT_PRESS_TIME). -/
def SHORT_PRESS_TIME : Nat := 1500

/-- Threshold between Medium and Long (part_000 line 7, LONG_PRESS_TIME). -/
def LONG_PRESS_TIME : Nat := 4000

/-- Debounce window in ms (part_000 line 8, DEBOUNCE_TIME). -/
def DEBOUNCE_TIME : Nat := 50

/-- Modulus of the 32-bit unsigned millisecond counter, 2 ^ 32. -/
def U32 : Nat := 4294967296

/-- Unsigned 32-bit subtraction a - b as computed by C `unsigned long`
arithmetic on AVR: the difference modulo 2 ^ 32. -/
def wsub (a b : Nat) : Nat := (a % U32 + (U32 - b % U32)) % U32

/-- The three press classes of the spec: Short, Medium (called Long in some
source comments) and Long (called Very Long in some source comments). -/
inductive PressClassification
  | Short
  | Medium
  | Long
deriving DecidableEq, Repr

/-- Duration classifier of part_000 buttonISR (lines 43-61) and of the
RoniMain.cpp interrupt variant (lines 325-336): strict `<` at both
boundaries. -/
def classify (d : Nat) : PressClassification :=
  if d < SHORT_PRESS_TIME then .Short
  else if d < LONG_PRESS_TIME then .Medium
  else .Long

/-- Duration classifier of main.cpp handleButtonISR (lines 63-75):
`duration < 1500` gives Short, `duration >= 1500 && duration <= 4000` gives
Medium (startBlinking), anything else gives Long (stopSystem). -/
def classifyMain (d : Nat) : PressClassification :=
  if d < 1500 then .Short
  else if 1500 ≤ d ∧ d ≤ 4000 then .Medium
  else .Long

/-- Diagnostic messages emitted on the serial channel by the part_000 loop,
one constructor per Serial block. -/
inductive Msg
  | off (duration : Nat)
  | shortPress (duration count : Nat)
  | confirmed (duration count : Nat)
  | errNoCounts (duration : Nat)
deriving DecidableEq, Repr

/-- The global mutable state of part_000: ISR-owned volatiles (PressCounter,
pressTime, lastISRTime, lastDuration, the three action flags), the main-flow
state (Blink, feedbackLedOn, lastFlashStart), the LED output level, and the
Timer1 configuration: an on-bit for the compare interrupt plus the value of
the 16-bit OCR1A compare register, which realises a toggle period of
OCR1A + 1 timer ticks of 64 microseconds each (16 MHz, 1024 prescaler). -/
structure SysState where
  pressCounter : Nat
  pressTime : Nat
  lastISRTime : Nat
  lastDuration : Nat
  actionShort : Bool
  actionStart : Bool
  actionStop : Bool
  blink : Bool
  feedbackLedOn : Bool
  lastFlashStart : Nat
  ledOn : Bool
  timerOn : Bool
  ocr1a : Nat
deriving DecidableEq, Repr

/-- State after setup() of part_000: counters and flags zeroed, LED low,
Timer1 off; OCR1A holds its hardware reset value 0 because setup() does not
configure Timer1 (the realised period of a CTC timer is OCR1A + 1 ticks, so
even the reset register realises a positive period, which is how the spec
invariant that the period is a positive quantity holds initially). -/
def initState : SysState where
  pressCounter := 0
  pressTime := 0
  lastISRTime := 0
  lastDuration := 0
  actionShort := false
  actionStart := false
  actionStop := false
  blink := false
  feedbackLedOn := false
  lastFlashStart := 0
  ledOn := false
  timerOn := false
  ocr1a := 0

/-- The toggle period realised by the Timer1 configuration, in timer ticks
of 64 microseconds (16 MHz clock, 1024 prescaler): a CTC-mode timer counts
0 .. OCR1A, so the period is OCR1A + 1 ticks and is always at least one
tick; 7812 ticks are 499.968 ms, the (approximately) 500 ms base interval
named in the part_000 comments. -/
def SysState.blinkPeriodTicks (s : SysState) : Nat := s.ocr1a + 1

/-- startTimer of part_000 (lines 82-101): clamps a non-positive count to 1
and programs OCR1A = (7812 * counts) - 1 with the Timer1 compare interrupt
enabled.  The computation is 16-bit AVR int arithmetic stored into the
16-bit OCR1A register, so the register receives the value modulo 2 ^ 16
(signed overflow, formally undefined from counts = 5, is taken as the
two's-complement wrap the hardware performs; the stored low 16 bits first
differ from the exact product at counts = 9). -/
def startTimer (counts : Int) (s : SysState) : SysState :=
  let c : Int := if counts ≤ 0 then 1 else counts
  { s with timerOn := true, ocr1a := (7812 * c - 1).toNat % 65536 }

/-- stopTimer of part_000 (lines 107-120): disables the Timer1 interrupt,
drives the LED low and resets PressCounter, Blink and feedbackLedOn. -/
def stopTimer (s : SysState) : SysState :=
  { s with timerOn := false, ledOn := false, pressCounter := 0,
           blink := false, feedbackLedOn := false }

/-- buttonISR of part_000 (lines 26-63): software debounce against
lastISRTime, press edge records pressTime, release edge computes the
duration with unsigned subtraction and classifies it, raising the matching
action flag; a Short press increments PressCounter only while not
blinking. -/
def buttonISR (now : Nat) (level : Bool) (s : SysState) : SysState :=
  if wsub now s.lastISRTime < DEBOUNCE_TIME then s
  else
    let s1 := { s with lastISRTime := now }
    if level then
      { s1 with pressTime := now }
    else
      let duration := wsub now s1.pressTime
      let s2 := { s1 with lastDuration := duration }
      if duration < SHORT_PRESS_TIME then
        if s2.blink = false then
          { s2 with pressCounter := s2.pressCounter + 1, actionShort := true }
        else s2
      else if duration < LONG_PRESS_TIME then
        { s2 with actionStart := true }
      else
        { s2 with actionStop := true }

/-- Release branch of buttonISR expressed over an already computed
classification: exactly the code of part_000 lines 43-61. -/
def raiseFlag (c : PressClassification) (s : SysState) : SysState :=
  match c with
  | .Short =>
      if s.blink = false then
        { s with pressCounter := s.pressCounter + 1, actionShort := true }
      else s
  | .Medium => { s with actionStart := true }
  | .Long => { s with actionStop := true }

/-- Timer1 compare-match ISR of part_000 (lines 69-75): toggles the LED
while Blink is set. -/
def timerISR (s : SysState) : SysState :=
  if s.blink then { s with ledOn := !s.ledOn } else s

/-- OFF branch of the part_000 loop (lines 145-153): clears both actionStop
and actionStart, prints the shutdown message and calls stopTimer. -/
def processOff (s : SysState) : SysState × List Msg :=
  if s.actionStop then
    (stopTimer { s with actionStop := false, actionStart := false },
     [Msg.off s.lastDuration])
  else (s, [])

/-- SHORT PRESS branch of the part_000 loop (lines 156-167): clears
actionShort, prints the duration and counter and starts the 200 ms feedback
flash (LED high). -/
def processShort (now : Nat) (s : SysState) : SysState × List Msg :=
  if s.actionShort then
    ({ s with actionShort := false, ledOn := true, feedbackLedOn := true,
              lastFlashStart := now },
     [Msg.shortPress s.lastDuration s.pressCounter])
  else (s, [])

/-- Feedback-flash timeout of the part_000 loop (lines 170-174): after
200 ms the feedback LED is driven low again. -/
def processFlashTimeout (now : Nat) (s : SysState) : SysState :=
  if s.feedbackLedOn ∧ 200 ≤ wsub now s.lastFlashStart then
    { s with ledOn := false, feedbackLedOn := false }
  else s

/-- START/CONFIRM branch of the part_000 loop (lines 177-197): clears
actionStart; if not blinking and PressCounter > 0 it enables Blink and
starts the timer with PressCounter counts; if not blinking and
PressCounter == 0 it only reports the error; otherwise nothing happens. -/
def processStart (s : SysState) : SysState × List Msg :=
  if s.actionStart then
    let s1 := { s with actionStart := false }
    if s1.blink = false ∧ 0 < s1.pressCounter then
      (startTimer (Int.ofNat s1.pressCounter) { s1 with blink := true },
       [Msg.confirmed s1.lastDuration s1.pressCounter])
    else if s1.blink = false ∧ s1.pressCounter = 0 then
      (s1, [Msg.errNoCounts s1.lastDuration])
    else (s1, [])
  else (s, [])

/-- One pass of the part_000 loop (lines 142-198), with `now` the value of
millis() during the pass: OFF branch, SHORT branch, flash timeout, then
START branch, collecting the serial output. -/
def loopBody (now : Nat) (s : SysState) : SysState × List Msg :=
  let p1 := processOff s
  let p2 := processShort now p1.1
  let s3 := processFlashTimeout now p2.1
  let p4 := processStart s3
  (p4.1, p1.2 ++ p2.2 ++ p4.2)

/-- Dispatching one classification: the ISR raises the flag and the next
loop pass processes it. -/
def dispatch (c : PressClassification) (now : Nat) (s : SysState) :
    SysState × List Msg :=
  loopBody now (raiseFlag c s)

/-- Processing of a pending Long (very long press) classification by the
loop: both flags cleared, then stopTimer; the cited stop routine of
part_000 lines 145-153 together with stopTimer lines 107-120. -/
def applyLong (s : SysState) : SysState :=
  stopTimer { s with actionStop := false, actionStart := false }

/-- States the part_000 program can be in: the initial state, closed under
button ISR invocations, Timer1 compare interrupts (possible only while the
timer is enabled) and loop passes. -/
inductive Reachable : SysState → Prop
  | init : Reachable initState
  | isr {s : SysState} (now : Nat) (level : Bool) :
      Reachable s → Reachable (buttonISR now level s)
  | tick {s : SysState} :
      Reachable s → s.timerOn = true → Reachable (timerISR s)
  | pass {s : SysState} (now : Nat) :
      Reachable s → Reachable (loopBody now s).1

/-- Main state invariant: while blinking, the timer is enabled, PressCounter
is positive and the OCR1A register holds exactly the (16-bit wrapped) value
(7812 * PressCounter) - 1 that startTimer programmed. -/
def Inv (s : SysState) : Prop :=
  s.blink = true →
    s.timerOn = true ∧ 0 < s.pressCounter ∧
    s.ocr1a = (7812 * s.pressCounter - 1) % 65536

theorem inv_init : Inv initState := by
  intro h
  simp [initState] at h

theorem inv_buttonISR {s : SysState} (now : Nat) (level : Bool)
    (h : Inv s) : Inv (buttonISR now level s) := by
  unfold buttonISR
  dsimp only
  split
  · exact h
  · split
    · exact fun hb => h hb
    · split
      · split
        · rename_i hblink
          intro hb
          simp [hblink] at hb
        · exact fun hb => h hb
      · split
        · exact fun hb => h hb
        · exact fun hb => h hb

theorem inv_timerISR {s : SysState} (h : Inv s) : Inv (timerISR s) := by
  unfold timerISR
  split
  · exact fun hb => h hb
  · exact h

theorem inv_processOff {s : SysState} (h : Inv s) : Inv (processOff s).1 := by
  unfold processOff stopTimer
  split
  · intro hb
    simp at hb
  · exact h

theorem inv_processShort {s : SysState} (now : Nat) (h : Inv s) :
    Inv (processShort now s).1 := by
  unfold processShort
  split
  · exact fun hb => h hb
  · exact h

theorem inv_processFlashTimeout {s : SysState} (now : Nat) (h : Inv s) :
    Inv (processFlashTimeout now s) := by
  unfold processFlashTimeout
  split
  · exact fun hb => h hb
  · exact h

theorem inv_processStart {s : SysState} (h : Inv s) :
    Inv (processStart s).1 := by
  unfold processStart startTimer
  dsimp only
  split
  · split
    · rename_i hc
      obtain ⟨hb, hpc⟩ := hc
      intro _
      refine ⟨rfl, hpc, ?_⟩
      simp only [Int.ofNat_eq_coe]
      rw [if_neg (by omega)]
      omega
    · split
      · exact fun hb => h hb
      · exact fun hb => h hb
  · exact h

theorem inv_loopBody {s : SysState} (now : Nat) (h : Inv s) :
    Inv (loopBody now s).1 :=
  inv_processStart (inv_processFlashTimeout now
    (inv_processShort now (inv_processOff h)))

theorem inv_reachable {s : SysState} (h : Reachable s) : Inv s := by
  induction h with
  | init => exact inv_init
  | isr now level _ ih => exact inv_buttonISR now level ih
  | tick _ _ ih => exact inv_timerISR ih
  | pass now _ ih => exact inv_loopBody now ih

theorem buttonISR_rejected {s : SysState} {t : Nat} (l : Bool)
    (h : wsub t s.lastISRTime < DEBOUNCE_TIME) : buttonISR t l s = s := by
  unfold buttonISR
  rw [if_pos h]

theorem buttonISR_accepted_lastISRTime {s : SysState} {t : Nat} (l : Bool)
    (h : ¬ wsub t s.lastISRTime < DEBOUNCE_TIME) :
    (buttonISR t l s).lastISRTime = t := by
  unfold buttonISR
  dsimp only
  rw [if_neg h]
  split_ifs <;> rfl

/-- Claim C1, counterexample: the claim asserts that a duration of exactly
4000 ms classifies as Long, but the main.cpp classifier maps 4000 to
Medium (its comparison is `duration <= 4000`), while the part_000
classifier does map 4000 to Long. -/
theorem c1_counterexample :
    classifyMain 4000 = PressClassification.Medium ∧
    classify 4000 = PressClassification.Long ∧
    PressClassification.Medium ≠ PressClassification.Long := by
  refine ⟨by decide, by decide, by decide⟩

/-- Claim C1 (amended): for the interrupt-driven classifiers of part_000 and
RoniMain.cpp, Short iff d < 1500, Medium iff 1500 ≤ d < 4000, Long iff
d ≥ 4000, so d = 1500 is Medium and d = 4000 is Long; the main.cpp variant
agrees except at the upper boundary, where Medium extends through d = 4000
and Long holds iff d > 4000. -/
theorem c1_classify_boundaries (d : Nat) :
    (classify d = .Short ↔ d < 1500) ∧
    (classify d = .Medium ↔ 1500 ≤ d ∧ d < 4000) ∧
    (classify d = .Long ↔ 4000 ≤ d) ∧
    (classifyMain d = .Short ↔ d < 1500) ∧
    (classifyMain d = .Medium ↔ 1500 ≤ d ∧ d ≤ 4000) ∧
    (classifyMain d = .Long ↔ 4000 < d) := by
  unfold classify classifyMain SHORT_PRESS_TIME LONG_PRESS_TIME
  split_ifs <;> simp_all <;> omega

/-- Claim C4: processing a Long (very long press) classification is
idempotent and yields the reset state: PressCounter 0, Blink off, LED low,
Timer1 disabled, feedback flash cancelled. -/
theorem c4_long_idempotent (s : SysState) :
    applyLong (applyLong s) = applyLong s ∧
    (applyLong s).pressCounter = 0 ∧
    (applyLong s).blink = false ∧
    (applyLong s).ledOn = false ∧
    (applyLong s).timerOn = false ∧
    (applyLong s).feedbackLedOn = false := by
  unfold applyLong stopTimer
  simp

/-- Claim C5: a Short-classified release (duration below 1500 ms) arriving
while Blink is active leaves PressCounter, Blink, the blink period, the
timer enable, the LED level, the feedback flash and all action flags
unchanged: the ISR guard `if (!Blink)` skips both the increment and the
actionShort flag. -/
theorem c5_short_while_blinking (s : SysState) (now : Nat)
    (hb : s.blink = true) (hd : wsub now s.pressTime < SHORT_PRESS_TIME) :
    (buttonISR now false s).pressCounter = s.pressCounter ∧
    (buttonISR now false s).blink = s.blink ∧
    (buttonISR now false s).ocr1a = s.ocr1a ∧
    (buttonISR now false s).timerOn = s.timerOn ∧
    (buttonISR now false s).ledOn = s.ledOn ∧
    (buttonISR now false s).feedbackLedOn = s.feedbackLedOn ∧
    (buttonISR now false s).actionShort = s.actionShort ∧
    (buttonISR now false s).actionStart = s.actionStart ∧
    (buttonISR now false s).actionStop = s.actionStop := by
  unfold buttonISR
  dsimp only
  split_ifs <;> simp_all

/-- Witness for claim C5: a concrete blinking state and a 100 ms press. -/
theorem c5_witness :
    (buttonISR 100 false { initState with blink := true }).pressCounter =
      ({ initState with blink := true } : SysState).pressCounter ∧
    (buttonISR 100 false { initState with blink := true }).blink =
      ({ initState with blink := true } : SysState).blink ∧
    (buttonISR 100 false { initState with blink := true }).ocr1a =
      ({ initState with blink := true } : SysState).ocr1a ∧
    (buttonISR 100 false { initState with blink := true }).timerOn =
      ({ initState with blink := true } : SysState).timerOn ∧
    (buttonISR 100 false { initState with blink := true }).ledOn =
      ({ initState with blink := true } : SysState).ledOn ∧
    (buttonISR 100 false { initState with blink := true }).feedbackLedOn =
      ({ initState with blink := true } : SysState).feedbackLedOn ∧
    (buttonISR 100 false { initState with blink := true }).actionShort =
      ({ initState with blink := true } : SysState).actionShort ∧
    (buttonISR 100 false { initState with blink := true }).actionStart =
      ({ initState with blink := true } : SysState).actionStart ∧
    (buttonISR 100 false { initState with blink := true }).actionStop =
      ({ initState with blink := true } : SysState).actionStop :=
  c5_short_while_blinking { initState with blink := true } 100 rfl (by decide)

/-- Claim C6: after an accepted transition at t1, a second transition less
than 50 ms later is discarded entirely (the state, including the stored
debounce timestamp, is untouched), while a second transition at least
50 ms later is accepted and updates the debounce timestamp to t2; the
first accepted transition itself stores t1. -/
theorem c6_debounce :
    (∀ (s : SysState) (t1 t2 : Nat) (l1 l2 : Bool),
      DEBOUNCE_TIME ≤ wsub t1 s.lastISRTime → wsub t2 t1 < DEBOUNCE_TIME →
      buttonISR t2 l2 (buttonISR t1 l1 s) = buttonISR t1 l1 s) ∧
    (∀ (s : SysState) (t1 t2 : Nat) (l1 l2 : Bool),
      DEBOUNCE_TIME ≤ wsub t1 s.lastISRTime → DEBOUNCE_TIME ≤ wsub t2 t1 →
      (buttonISR t1 l1 s).lastISRTime = t1 ∧
      (buttonISR t2 l2 (buttonISR t1 l1 s)).lastISRTime = t2) := by
  constructor
  · intro s t1 t2 l1 l2 h1 h2
    have ht1 : (buttonISR t1 l1 s).lastISRTime = t1 :=
      buttonISR_accepted_lastISRTime l1 (by omega)
    exact buttonISR_rejected l2 (by rw [ht1]; exact h2)
  · intro s t1 t2 l1 l2 h1 h2
    have ht1 : (buttonISR t1 l1 s).lastISRTime = t1 :=
      buttonISR_accepted_lastISRTime l1 (by omega)
    refine ⟨ht1, buttonISR_accepted_lastISRTime l2 (by rw [ht1]; omega)⟩

/-- Witness for claim C6: transitions at 100 and 120 ms give one accepted
event, at 100 and 200 ms give two. -/
theorem c6_witness :
    buttonISR 120 false (buttonISR 100 true initState) =
      buttonISR 100 true initState ∧
    (buttonISR 200 false (buttonISR 100 true initState)).lastISRTime = 200 :=
  ⟨c6_debounce.1 initState 100 120 true false (by decide) (by decide),
   (c6_debounce.2 initState 100 200 true false (by decide) (by decide)).2⟩

/-- Claim C7: the unsigned 32-bit subtraction used for all press-duration
computations recovers the true elapsed time across counter wraparound:
if the release timestamp is the press timestamp plus e modulo 2 ^ 32, the
computed duration is exactly e for every elapsed time below 2 ^ 32. -/
theorem c7_wraparound_duration (t1 e : Nat) (h1 : t1 < U32) (h2 : e < U32) :
    wsub ((t1 + e) % U32) t1 = e := by
  unfold wsub U32 at *
  omega

/-- Witness for claim C7: press at 0xFFFFFFF0, elapsed 0x20, release
timestamp wraps to 0x10, and the computed duration is 0x20 = 32, not a
huge value. -/
theorem c7_witness : wsub ((4294967280 + 32) % U32) 4294967280 = 32 :=
  c7_wraparound_duration 4294967280 32 (by decide) (by decide)

theorem processOff_skip {s : SysState} (h : s.actionStop = false) :
    processOff s = (s, []) := by
  unfold processOff
  rw [if_neg (by simp [h])]

theorem processShort_skip (now : Nat) {s : SysState}
    (h : s.actionShort = false) : processShort now s = (s, []) := by
  unfold processShort
  rw [if_neg (by simp [h])]

theorem processFlashTimeout_skip (now : Nat) {s : SysState}
    (h : s.feedbackLedOn = false) : processFlashTimeout now s = s := by
  unfold processFlashTimeout
  rw [if_neg (by simp [h])]

theorem processStart_skip {s : SysState} (h : s.actionStart = false) :
    processStart s = (s, []) := by
  unfold processStart
  rw [if_neg (by simp [h])]

theorem processShort_frame (now : Nat) (s : SysState) :
    ((processShort now s).1).blink = s.blink ∧
    ((processShort now s).1).pressCounter = s.pressCounter ∧
    ((processShort now s).1).ocr1a = s.ocr1a ∧
    ((processShort now s).1).timerOn = s.timerOn ∧
    ((processShort now s).1).actionStart = s.actionStart ∧
    ((processShort now s).1).actionStop = s.actionStop := by
  unfold processShort
  split <;> simp

theorem processFlashTimeout_frame (now : Nat) (s : SysState) :
    (processFlashTimeout now s).blink = s.blink ∧
    (processFlashTimeout now s).pressCounter = s.pressCounter ∧
    (processFlashTimeout now s).ocr1a = s.ocr1a ∧
    (processFlashTimeout now s).timerOn = s.timerOn ∧
    (processFlashTimeout now s).actionStart = s.actionStart ∧
    (processFlashTimeout now s).actionStop = s.actionStop := by
  unfold processFlashTimeout
  split <;> simp

/-- State after three clean short presses from the initial state: presses at
100, 300 and 500 ms, each released 100 ms later. -/
def sAfterThreeShorts : SysState :=
  buttonISR 600 false (buttonISR 500 true (buttonISR 400 false
    (buttonISR 300 true (buttonISR 200 false
      (buttonISR 100 true initState)))))

/-- State after nine clean short presses from the initial state (presses at
100, 300, ..., 1700 ms, each released 100 ms later): a reachable state
with PressCounter = 9. -/
def sAfterNineShorts : SysState :=
  buttonISR 1800 false (buttonISR 1700 true (buttonISR 1600 false
    (buttonISR 1500 true (buttonISR 1400 false (buttonISR 1300 true
      (buttonISR 1200 false (buttonISR 1100 true (buttonISR 1000 false
        (buttonISR 900 true (buttonISR 800 false (buttonISR 700 true
          (buttonISR 600 false (buttonISR 500 true (buttonISR 400 false
            (buttonISR 300 true (buttonISR 200 false
              (buttonISR 100 true initState)))))))))))))))))

set_option maxRecDepth 40000 in
/-- Claim C2, counterexample: in the reachable state after nine short
presses, a Medium dispatch starts blinking, but the 16-bit OCR1A
computation (7812 * 9) - 1 wraps to 4771, so the realised period is 4772
ticks (305.408 ms) — it is not 9 times the 500 ms base interval
(9 * 7812 ticks), and at 64 microseconds per tick it falls short of even
the smallest period the claim allows, 9 * 500 ms = 9 * 500000
microseconds. -/
theorem c2_counterexample :
    ((dispatch .Medium 1900 sAfterNineShorts).1).pressCounter = 9 ∧
    ((dispatch .Medium 1900 sAfterNineShorts).1).blink = true ∧
    ((dispatch .Medium 1900 sAfterNineShorts).1).blinkPeriodTicks = 4772 ∧
    ((dispatch .Medium 1900 sAfterNineShorts).1).blinkPeriodTicks ≠
      9 * 7812 ∧
    64 * ((dispatch .Medium 1900 sAfterNineShorts).1).blinkPeriodTicks <
      9 * 500000 := by
  refine ⟨by decide, by decide, by decide, by decide, by decide⟩

/-- Claim C2 (amended): in any reachable state with a positive PressCounter
and no pending shutdown, dispatching a Medium classification leaves the
system blinking: Blink is set, the Timer1 compare interrupt is enabled,
PressCounter is unchanged, and OCR1A holds (7812 * PressCounter) - 1
reduced modulo 2 ^ 16 by the 16-bit arithmetic; for PressCounter up to 8
no wrap occurs and the realised period is exactly PressCounter times the
7812-tick (500 ms) base interval, while for PressCounter at least 9 the
register wraps and the realised period is shorter.  The compare-match ISR
then toggles the LED on every firing. -/
theorem c2_medium_starts_blink (s : SysState) (now : Nat)
    (hr : Reachable s) (hstop : s.actionStop = false)
    (hpc : 0 < s.pressCounter) :
    ((dispatch .Medium now s).1).blink = true ∧
    ((dispatch .Medium now s).1).timerOn = true ∧
    ((dispatch .Medium now s).1).pressCounter = s.pressCounter ∧
    ((dispatch .Medium now s).1).ocr1a =
      (7812 * s.pressCounter - 1) % 65536 ∧
    (s.pressCounter ≤ 8 →
      ((dispatch .Medium now s).1).blinkPeriodTicks =
        7812 * s.pressCounter) ∧
    timerISR ((dispatch .Medium now s).1) =
      { (dispatch .Medium now s).1 with
          ledOn := !((dispatch .Medium now s).1).ledOn } := by
  have hbi := inv_reachable hr
  have hcomp : (dispatch .Medium now s).1 =
      (processStart (processFlashTimeout now
        (processShort now (processOff { s with actionStart := true }).1).1)).1 :=
    rfl
  have hoff : processOff { s with actionStart := true } =
      ({ s with actionStart := true }, []) :=
    processOff_skip hstop
  rw [hoff] at hcomp
  obtain ⟨f1, f2, f3, f4, f5, f6⟩ :=
    processShort_frame now { s with actionStart := true }
  obtain ⟨g1, g2, g3, g4, g5, g6⟩ :=
    processFlashTimeout_frame now
      (processShort now { s with actionStart := true }).1
  have hmain :
      ((dispatch .Medium now s).1).blink = true ∧
      ((dispatch .Medium now s).1).timerOn = true ∧
      ((dispatch .Medium now s).1).pressCounter = s.pressCounter ∧
      ((dispatch .Medium now s).1).ocr1a =
        (7812 * s.pressCounter - 1) % 65536 := by
    rw [hcomp]
    unfold processStart startTimer Inv at *
    dsimp only
    split_ifs <;> simp_all <;> omega
  refine ⟨hmain.1, hmain.2.1, hmain.2.2.1, hmain.2.2.2, ?_, ?_⟩
  · intro h8
    unfold SysState.blinkPeriodTicks
    rw [hmain.2.2.2]
    omega
  · unfold timerISR
    rw [if_pos hmain.1]

/-- Witness for the amended claim C2: after three short presses PressCounter
is 3, and a Medium dispatch starts blinking with OCR1A = 7812 * 3 - 1, a
realised period of 3 times the 7812-tick (500 ms) base interval. -/
theorem c2_witness :
    ((dispatch .Medium 700 sAfterThreeShorts).1).blink = true ∧
    ((dispatch .Medium 700 sAfterThreeShorts).1).timerOn = true ∧
    ((dispatch .Medium 700 sAfterThreeShorts).1).pressCounter =
      sAfterThreeShorts.pressCounter ∧
    ((dispatch .Medium 700 sAfterThreeShorts).1).ocr1a =
      (7812 * sAfterThreeShorts.pressCounter - 1) % 65536 ∧
    ((dispatch .Medium 700 sAfterThreeShorts).1).blinkPeriodTicks =
      7812 * sAfterThreeShorts.pressCounter ∧
    timerISR ((dispatch .Medium 700 sAfterThreeShorts).1) =
      { (dispatch .Medium 700 sAfterThreeShorts).1 with
          ledOn := !((dispatch .Medium 700 sAfterThreeShorts).1).ledOn } := by
  have h := c2_medium_starts_blink sAfterThreeShorts 700
    (Reachable.isr 600 false (Reachable.isr 500 true (Reachable.isr 400 false
      (Reachable.isr 300 true (Reachable.isr 200 false
        (Reachable.isr 100 true Reachable.init))))))
    (by decide) (by decide)
  exact ⟨h.1, h.2.1, h.2.2.1, h.2.2.2.1, h.2.2.2.2.1 (by decide),
    h.2.2.2.2.2⟩

theorem set_actionStart_false_self {s : SysState} (h : s.actionStart = false) :
    { s with actionStart := false } = s := by
  cases s
  simp_all

/-- Claim C3: in any reachable quiescent state with PressCounter zero,
dispatching a Medium classification changes nothing at all: the state is
returned unchanged, the only effect is the ERROR diagnostic on the serial
channel, and Blink is (and stays) false. -/
theorem c3_medium_zero_noop (s : SysState) (now : Nat) (hr : Reachable s)
    (hstop : s.actionStop = false) (hshort : s.actionShort = false)
    (hstart : s.actionStart = false) (hfb : s.feedbackLedOn = false)
    (hpc : s.pressCounter = 0) :
    dispatch .Medium now s = (s, [Msg.errNoCounts s.lastDuration]) ∧
    s.blink = false := by
  have hb : s.blink = false := by
    cases hblink : s.blink
    · rfl
    · exfalso
      obtain ⟨-, hcnt, -⟩ := inv_reachable hr hblink
      omega
  refine ⟨?_, hb⟩
  have e1 : processOff { s with actionStart := true } =
      ({ s with actionStart := true }, []) := processOff_skip hstop
  have e2 : processShort now { s with actionStart := true } =
      ({ s with actionStart := true }, []) := processShort_skip now hshort
  have e3 : processFlashTimeout now { s with actionStart := true } =
      { s with actionStart := true } := processFlashTimeout_skip now hfb
  have e4 : processStart { s with actionStart := true } =
      ({ s with actionStart := false },
       [Msg.errNoCounts s.lastDuration]) := by
    unfold processStart
    rw [if_pos (show ({ s with actionStart := true } :
      SysState).actionStart = true from rfl)]
    dsimp only
    rw [if_neg (by simp [hpc]), if_pos ⟨hb, hpc⟩]
  have hd : dispatch .Medium now s =
      ((processStart (processFlashTimeout now (processShort now
          (processOff { s with actionStart := true }).1).1)).1,
       (processOff { s with actionStart := true }).2 ++
       (processShort now (processOff { s with actionStart := true }).1).2 ++
       (processStart (processFlashTimeout now (processShort now
          (processOff { s with actionStart := true }).1).1)).2) := rfl
  rw [hd, e1]
  dsimp only
  rw [e2]
  dsimp only
  rw [e3, e4]
  dsimp only
  rw [set_actionStart_false_self hstart]
  simp

/-- Witness for claim C3: a Medium dispatch in the initial state is a pure
no-op apart from the diagnostic. -/
theorem c3_witness :
    dispatch .Medium 0 initState =
      (initState, [Msg.errNoCounts initState.lastDuration]) ∧
    initState.blink = false :=
  c3_medium_zero_noop initState 0 Reachable.init rfl rfl rfl rfl rfl

/-- Claim C8: the realised blink period is always positive: startTimer
always programs a well-formed 16-bit OCR1A value whose realised period is
at least one tick — for a non-positive count it clamps to 1, giving
OCR1A = 7811, one full 7812-tick (500 ms) base interval — and every
reachable state of the system realises a positive period. -/
theorem c8_blink_period_positive :
    (∀ (counts : Int) (s : SysState),
      0 < (startTimer counts s).blinkPeriodTicks) ∧
    (∀ (counts : Int) (s : SysState), (startTimer counts s).ocr1a < 65536) ∧
    (∀ (counts : Int) (s : SysState), counts ≤ 0 →
      (startTimer counts s).ocr1a = 7811 ∧
      (startTimer counts s).blinkPeriodTicks = 7812) ∧
    (∀ s : SysState, Reachable s → 0 < s.blinkPeriodTicks) := by
  refine ⟨?_, ?_, ?_, ?_⟩
  · intro counts s
    unfold startTimer SysState.blinkPeriodTicks
    dsimp only
    omega
  · intro counts s
    unfold startTimer
    dsimp only
    omega
  · intro counts s h
    unfold startTimer SysState.blinkPeriodTicks
    dsimp only
    rw [if_pos h]
    exact ⟨rfl, rfl⟩
  · intro s hr
    unfold SysState.blinkPeriodTicks
    omega

/-- Witness for claim C8: a zero count is clamped to one base interval
(OCR1A = 7811, 7812 ticks), and the initial state realises a positive
period. -/
theorem c8_witness :
    (startTimer 0 initState).ocr1a = 7811 ∧
    (startTimer 0 initState).blinkPeriodTicks = 7812 ∧
    0 < initState.blinkPeriodTicks :=
  ⟨(c8_blink_period_positive.2.2.1 0 initState (by decide)).1,
   (c8_blink_period_positive.2.2.1 0 initState (by decide)).2,
   c8_blink_period_positive.2.2.2 initState Reachable.init⟩

/-- Byte i (little-endian) of a value, as an 8-bit AVR core reads a multi
byte variable one byte at a time. -/
def byteOf (v i : Nat) : Nat := v / 256 ^ i % 256

/-- Reassembly of the four bytes of a 32-bit value read byte by byte. -/
def assemble (b0 b1 b2 b3 : Nat) : Nat :=
  b0 + 256 * b1 + 65536 * b2 + 16777216 * b3

/-- A four-byte read of the 32-bit counter systemMs on an 8-bit core, with
i1, i2, i3 the number of TIMER2 tick increments that preempt the reader
between consecutive byte reads; each byte is read from the counter value
current at that moment (RoniMain.cpp lines 108-121). -/
def readInterleaved (v i1 i2 i3 : Nat) : Nat :=
  let v0 := v % U32
  let v1 := (v0 + i1) % U32
  let v2 := (v1 + i2) % U32
  let v3 := (v2 + i3) % U32
  assemble (byteOf v0 0) (byteOf v1 1) (byteOf v2 2) (byteOf v3 3)

/-- getSystemMs of RoniMain.cpp (lines 115-121): the four byte reads happen
between noInterrupts() and interrupts(), so no tick increment can occur
between them: every interleaving count is zero. -/
def getSystemMs (v : Nat) : Nat := readInterleaved v 0 0 0

/-- Claim C9: the critical-section read returns exactly the 32-bit counter
value for every counter value, hence never a torn value; without the
critical section a single tick between byte reads can assemble 511 from a
counter that only ever held 255 and 256, so the model does distinguish
torn reads. -/
theorem c9_no_torn_read :
    (∀ v : Nat, getSystemMs v = v % U32) ∧
    readInterleaved 255 1 0 0 = 511 ∧
    readInterleaved 255 1 0 0 ≠ 255 % U32 ∧
    readInterleaved 255 1 0 0 ≠ (255 + 1) % U32 := by
  refine ⟨?_, by decide, by decide, by decide⟩
  intro v
  unfold getSystemMs readInterleaved assemble byteOf U32
  dsimp only
  norm_num
  omega

theorem loopBody_stop_reset {s : SysState} (now : Nat)
    (h : s.actionStop = true) :
    (loopBody now s).1.actionStop = false ∧
    (loopBody now s).1.actionStart = false ∧
    (loopBody now s).1.blink = false ∧
    (loopBody now s).1.pressCounter = 0 ∧
    (loopBody now s).1.timerOn = false := by
  have e1 : processOff s = (applyLong s, [Msg.off s.lastDuration]) := by
    unfold processOff applyLong
    rw [if_pos h]
  have hcomp : (loopBody now s).1 =
      (processStart (processFlashTimeout now
        (processShort now (processOff s).1).1)).1 := rfl
  rw [e1] at hcomp
  dsimp only at hcomp
  obtain ⟨f1, f2, f3, f4, f5, f6⟩ := processShort_frame now (applyLong s)
  obtain ⟨g1, g2, g3, g4, g5, g6⟩ :=
    processFlashTimeout_frame now (processShort now (applyLong s)).1
  have hstart : (processFlashTimeout now
      (processShort now (applyLong s)).1).actionStart = false := by
    rw [g5, f5]
    rfl
  rw [processStart_skip hstart] at hcomp
  dsimp only at hcomp
  rw [hcomp]
  refine ⟨?_, ?_, ?_, ?_, ?_⟩
  · rw [g6, f6]
    rfl
  · rw [g5, f5]
    rfl
  · rw [g1, f1]
    rfl
  · rw [g2, f2]
    rfl
  · rw [g4, f4]
    rfl

theorem loopBody_stays_off {s : SysState} (now : Nat)
    (h1 : s.actionStart = false) (h2 : s.blink = false)
    (h3 : s.timerOn = false) :
    (loopBody now s).1.blink = false ∧
    (loopBody now s).1.timerOn = false ∧
    (loopBody now s).1.actionStart = false := by
  by_cases hstop : s.actionStop = true
  · obtain ⟨-, q2, q3, -, q5⟩ := loopBody_stop_reset now hstop
    exact ⟨q3, q5, q2⟩
  · have hsf : s.actionStop = false := by
      cases hval : s.actionStop
      · rfl
      · exact absurd hval hstop
    have hcomp : (loopBody now s).1 =
        (processStart (processFlashTimeout now
          (processShort now (processOff s).1).1)).1 := rfl
    rw [processOff_skip hsf] at hcomp
    dsimp only at hcomp
    obtain ⟨f1, f2, f3, f4, f5, f6⟩ := processShort_frame now s
    obtain ⟨g1, g2, g3, g4, g5, g6⟩ :=
      processFlashTimeout_frame now (processShort now s).1
    have hstart : (processFlashTimeout now
        (processShort now s).1).actionStart = false := by
      rw [g5, f5, h1]
    rw [processStart_skip hstart] at hcomp
    dsimp only at hcomp
    rw [hcomp]
    exact ⟨by rw [g1, f1, h2], by rw [g4, f4, h3], by rw [g5, f5, h1]⟩

/-- Claim C10: a loop pass that finds actionStop set clears both actionStop
and actionStart and ends with the system reset (Blink off, PressCounter
zero, timer disabled), so a Medium flag raised before the shutdown is
never dispatched after it; and a pass starting from an off state with no
pending Medium flag keeps the system off. -/
theorem c10_stop_clears_start :
    (∀ (s : SysState) (now : Nat), s.actionStop = true →
      ((loopBody now s).1.actionStop = false ∧
       (loopBody now s).1.actionStart = false ∧
       (loopBody now s).1.blink = false ∧
       (loopBody now s).1.pressCounter = 0 ∧
       (loopBody now s).1.timerOn = false)) ∧
    (∀ (s : SysState) (now : Nat), s.actionStart = false →
      s.blink = false → s.timerOn = false →
      ((loopBody now s).1.blink = false ∧
       (loopBody now s).1.timerOn = false ∧
       (loopBody now s).1.actionStart = false)) :=
  ⟨fun _ now h => loopBody_stop_reset now h,
   fun _ now h1 h2 h3 => loopBody_stays_off now h1 h2 h3⟩

/-- A state with both a pending shutdown and a pending Medium flag, as left
by a very long press followed immediately by a medium press. -/
def sStopAndStart : SysState :=
  { initState with actionStop := true, actionStart := true, blink := true,
                   timerOn := true, pressCounter := 2, ocr1a := 15623 }

/-- Witness for claim C10: the pass on a state with both flags pending ends
reset with both flags clear, and a pass on the off initial state keeps it
off. -/
theorem c10_witness :
    ((loopBody 0 sStopAndStart).1.actionStop = false ∧
     (loopBody 0 sStopAndStart).1.actionStart = false ∧
     (loopBody 0 sStopAndStart).1.blink = false ∧
     (loopBody 0 sStopAndStart).1.pressCounter = 0 ∧
     (loopBody 0 sStopAndStart).1.timerOn = false) ∧
    ((loopBody 5 initState).1.blink = false ∧
     (loopBody 5 initState).1.timerOn = false ∧
     (loopBody 5 initState).1.actionStart = false) :=
  ⟨c10_stop_clears_start.1 sStopAndStart 0 rfl,
   c10_stop_clears_start.2 initState 5 rfl rfl rfl⟩

end ButtonLed
